import Mathlib

/-!
Verification of the winkywink retail-analytics pipeline.

Shallow embedding of the edge runtime (`edge_runtime_v2.py`), the bulk
ingestion endpoint (`backend/src/api/ingest_routes.py`) and the analytics
layer (`backend/src/analytics/*.py`).  Machine reals of the source are
modelled as exact rationals, timestamps as seconds-since-epoch naturals,
and SQL result sets as Lean lists.
-/

namespace Wink

/-! ## SHA-256 (the semantics of Python's `hashlib.sha256`)

Implemented over `Nat` with explicit reduction modulo `2^32`;
`Sha256.sha256Hex` maps a byte list to the lowercase hex digest string.
-/

namespace Sha256

/-- `2^32`, the word modulus. -/
def M32 : Nat := 4294967296

/-- Addition modulo `2^32`. -/
def add32 (a b : Nat) : Nat := (a + b) % M32

/-- Right rotation of a 32-bit word. -/
def rotr (n x : Nat) : Nat := ((x >>> n) ||| (x <<< (32 - n))) % M32

/-- Bitwise complement of a 32-bit word. -/
def not32 (x : Nat) : Nat := x ^^^ 4294967295

def bigSigma0 (x : Nat) : Nat := (rotr 2 x) ^^^ (rotr 13 x) ^^^ (rotr 22 x)

def bigSigma1 (x : Nat) : Nat := (rotr 6 x) ^^^ (rotr 11 x) ^^^ (rotr 25 x)

def smallSigma0 (x : Nat) : Nat := (rotr 7 x) ^^^ (rotr 18 x) ^^^ (x >>> 3)

def smallSigma1 (x : Nat) : Nat := (rotr 17 x) ^^^ (rotr 19 x) ^^^ (x >>> 10)

def ch (x y z : Nat) : Nat := (x &&& y) ^^^ (not32 x &&& z)

def maj (x y z : Nat) : Nat := (x &&& y) ^^^ (x &&& z) ^^^ (y &&& z)

/-- The 64 round constants. -/
def K : List Nat :=
  [1116352408, 1899447441, 3049323471, 3921009573, 961987163,
   1508970993, 2453635748, 2870763221, 3624381080, 310598401,
   607225278, 1426881987, 1925078388, 2162078206, 2614888103,
   3248222580, 3835390401, 4022224774, 264347078, 604807628,
   770255983, 1249150122, 1555081692, 1996064986, 2554220882,
   2821834349, 2952996808, 3210313671, 3336571891, 3584528711,
   113926993, 338241895, 666307205, 773529912, 1294757372,
   1396182291, 1695183700, 1986661051, 2177026350, 2456956037,
   2730485921, 2820302411, 3259730800, 3345764771, 3516065817,
   3600352804, 4094571909, 275423344, 430227734, 506948616,
   659060556, 883997877, 958139571, 1322822218, 1537002063,
   1747873779, 1955562222, 2024104815, 2227730452, 2361852424,
   2428436474, 2756734187, 3204031479, 3329325298]

/-- The eight working words of the compression state. -/
structure St where
  a : Nat
  b : Nat
  c : Nat
  d : Nat
  e : Nat
  f : Nat
  g : Nat
  h : Nat

/-- The initial hash state. -/
def H0 : St :=
  ⟨1779033703, 3144134277, 1013904242, 2773480762,
   1359893119, 2600822924, 528734635, 1541459225⟩

/-- Group 64 bytes into 16 big-endian 32-bit words. -/
def toWords : List Nat → List Nat
  | b0 :: b1 :: b2 :: b3 :: rest =>
      (((b0 * 256 + b1) * 256 + b2) * 256 + b3) :: toWords rest
  | _ => []

/-- Append the next word of the message schedule. -/
def stepW (w : List Nat) : List Nat :=
  let t := w.length
  w ++ [add32 (add32 (smallSigma1 (w.getD (t - 2) 0)) (w.getD (t - 7) 0))
              (add32 (smallSigma0 (w.getD (t - 15) 0)) (w.getD (t - 16) 0))]

/-- Extend the schedule by `n` words. -/
def extendW : Nat → List Nat → List Nat
  | 0, w => w
  | n + 1, w => extendW n (stepW w)

/-- One compression round with round constant `k` and schedule word `w`. -/
def round (k w : Nat) (s : St) : St :=
  let t1 := add32 s.h (add32 (bigSigma1 s.e) (add32 (ch s.e s.f s.g) (add32 k w)))
  let t2 := add32 (bigSigma0 s.a) (maj s.a s.b s.c)
  ⟨add32 t1 t2, s.a, s.b, s.c, add32 s.d t1, s.e, s.f, s.g⟩

/-- Compress one 64-byte block into the state. -/
def compress (s : St) (block : List Nat) : St :=
  let w := extendW 48 (toWords block)
  let r := (List.range 64).foldl (fun st i => round (K.getD i 0) (w.getD i 0) st) s
  ⟨add32 s.a r.a, add32 s.b r.b, add32 s.c r.c, add32 s.d r.d,
   add32 s.e r.e, add32 s.f r.f, add32 s.g r.g, add32 s.h r.h⟩

/-- Process the padded message 64 bytes at a time (fuel-driven for kernel
reduction; the fuel is always at least the number of blocks). -/
def processBlocks : Nat → St → List Nat → St
  | 0, s, _ => s
  | _ + 1, s, [] => s
  | n + 1, s, l => processBlocks n (compress s (l.take 64)) (l.drop 64)

/-- The 8-byte big-endian bit-length trailer of the padding. -/
def lenBytes (len : Nat) : List Nat :=
  let b := len * 8
  [b / 72057594037927936 % 256, b / 281474976710656 % 256,
   b / 1099511627776 % 256, b / 4294967296 % 256,
   b / 16777216 % 256, b / 65536 % 256, b / 256 % 256, b % 256]

/-- Merkle–Damgård padding: `0x80`, zeros to 56 mod 64, 64-bit length. -/
def pad (msg : List Nat) : List Nat :=
  msg ++ 128 :: List.replicate ((120 - (msg.length + 1) % 64) % 64) 0
      ++ lenBytes msg.length

/-- A hex digit character (lowercase). -/
def hexDigit (n : Nat) : Char :=
  if n < 10 then Char.ofNat (48 + n) else Char.ofNat (87 + n)

/-- Eight hex digits of a 32-bit word, most significant first. -/
def wordHex (x : Nat) : List Char :=
  [hexDigit (x / 268435456 % 16), hexDigit (x / 16777216 % 16),
   hexDigit (x / 1048576 % 16), hexDigit (x / 65536 % 16),
   hexDigit (x / 4096 % 16), hexDigit (x / 256 % 16),
   hexDigit (x / 16 % 16), hexDigit (x % 16)]

/-- SHA-256 digest of a byte list as a lowercase hex string. -/
def sha256Hex (msg : List Nat) : String :=
  let p := pad msg
  let s := processBlocks p.length H0 p
  String.mk (wordHex s.a ++ wordHex s.b ++ wordHex s.c ++ wordHex s.d ++
             wordHex s.e ++ wordHex s.f ++ wordHex s.g ++ wordHex s.h)

end Sha256

/-- UTF-8 encoding of one character (the semantics of Python's
`str.encode()` per code point). -/
def utf8Bytes (c : Char) : List Nat :=
  let n := c.toNat
  if n < 128 then [n]
  else if n < 2048 then [192 + n / 64, 128 + n % 64]
  else if n < 65536 then [224 + n / 4096, 128 + n / 64 % 64, 128 + n % 64]
  else [240 + n / 262144, 128 + n / 4096 % 64, 128 + n / 64 % 64, 128 + n % 64]

/-- UTF-8 bytes of a string, as `s.encode()` produces them. -/
def strBytes (s : String) : List Nat := s.data.flatMap utf8Bytes

/-- The single byte of `b"|"`. -/
def pipeByte : List Nat := [124]

/-- `make_event_id` from `edge_runtime_v2.py`: feeds
`camera_id`, `"|"`, `track_id`, `"|"`, `ts_iso`, `"|"`, `etype` to the hash,
then `"|"` and `logical_key` only when `logical_key` is truthy (non-empty). -/
def make_event_id (camera_id track_id ts_iso etype : String)
    (logical_key : String := "") : String :=
  Sha256.sha256Hex
    (strBytes camera_id ++ pipeByte ++ strBytes track_id ++ pipeByte ++
     strBytes ts_iso ++ pipeByte ++ strBytes etype ++
     (if logical_key = "" then [] else pipeByte ++ strBytes logical_key))

/-! ## Data model

Timestamps are UTC seconds since the epoch, so `DATE(ts)` is `ts / 86400`,
`date_trunc('hour', ts)` is `ts / 3600` and `date_trunc('minute', ts)` is
`ts / 60`.  JSON payloads keep only the keys the queries touch; an absent
key is `none`, and SQL `payload->>'k' = 'v'` is `= some v` (false on NULL).
-/

/-- The JSON `payload` column, restricted to the keys the code reads. -/
structure Payload where
  direction : Option String := none
  person_id : Option String := none
  person_key : Option String := none
  logical_zone : Option String := none
  logical_shelf : Option String := none
  action : Option String := none
  state : Option String := none
  queue : Option String := none
  shelf_id : Option String := none
  dwell_seconds : Option ℚ := none
  wait_seconds : Option ℚ := none
deriving DecidableEq

/-- A row of the `events` table (`models_production.Event`); the surrogate
`id` and `created_at` play no role in the verified queries. -/
structure Event where
  event_id : String
  org_id : String
  store_id : String
  camera_id : String
  person_key : Option String := none
  type : String
  ts : Nat
  payload : Payload := {}
deriving DecidableEq

/-- A row of `cameras_extended` (`models_production.Camera`); `camera_id`
is its primary key. -/
structure Camera where
  camera_id : String
  store_id : String
  is_entrance : Bool
deriving DecidableEq

/-- An element of the `events` array of a `POST /v1/events/bulk` body
(`V1IngestEvent`), with `ts` already parsed. -/
structure IngestEvent where
  event_id : String
  org_id : String
  store_id : String
  camera_id : String
  type : String
  ts : Nat
  payload : Payload := {}
deriving DecidableEq

/-- The scope `authenticate_edge` derives from an active edge key. -/
structure Scope where
  org_id : String
  store_id : String
  camera_id : Option String := none
deriving DecidableEq

/-! ## Bulk ingestion (`v1_post_events_bulk`, ingest_routes.py 127-202) -/

/-- Python's `a or b` on optional strings (`""` and `None` are falsy). -/
def pyOr (a b : Option String) : Option String :=
  match a with
  | some s => if s = "" then b else some s
  | none => b

/-- The row built by the insert loop:
`person_key = evt.payload.get("person_id") or evt.payload.get("person_key")`. -/
def toRow (evt : IngestEvent) : Event :=
  { event_id := evt.event_id, org_id := evt.org_id, store_id := evt.store_id,
    camera_id := evt.camera_id,
    person_key := pyOr evt.payload.person_id evt.payload.person_key,
    type := evt.type, ts := evt.ts, payload := evt.payload }

/-- The values of the unique `event_id` column over a set of rows. -/
def eventIds (rows : List Event) : List String := rows.map Event.event_id

/-- The response of the bulk endpoint. -/
inductive BulkResult where
  /-- HTTP 403 `Token scope mismatch`; the transaction is never committed. -/
  | forbidden
  /-- `{status, inserted: 0, duplicates: 0}` for an empty batch. -/
  | okEmpty
  /-- `{status, inserted, duplicates, total}`. -/
  | ok (inserted duplicates total : Nat)
deriving DecidableEq

/-- The per-event insert loop.  `db.add`/`db.flush` appends the row to the
open transaction's pending rows; a unique violation on `event_id` (against
committed or pending rows) raises `IntegrityError`, on which the handler
does `db.rollback()` — discarding every pending row of the transaction —
increments `duplicates` and continues with the next event. -/
def insertLoop (committed : List Event) :
    List IngestEvent → List Event → Nat → Nat → Nat × Nat × List Event
  | [], pending, inserted, duplicates => (inserted, duplicates, pending)
  | evt :: rest, pending, inserted, duplicates =>
      if evt.event_id ∈ eventIds committed ++ eventIds pending then
        insertLoop committed rest [] inserted (duplicates + 1)
      else
        insertLoop committed rest (pending ++ [toRow evt]) (inserted + 1) duplicates

/-- `v1_post_events_bulk`: empty batches short-circuit; the credential scope
is compared against the FIRST event only; then the insert loop runs and the
final `db.commit()` persists the surviving pending rows. -/
def v1_post_events_bulk (auth : Scope) (events : List IngestEvent)
    (db : List Event) : BulkResult × List Event :=
  match events with
  | [] => (BulkResult.okEmpty, db)
  | first :: _ =>
      if first.org_id ≠ auth.org_id ∨ first.store_id ≠ auth.store_id then
        (BulkResult.forbidden, db)
      else
        let r := insertLoop db events [] 0 0
        (BulkResult.ok r.1 r.2.1 events.length, db ++ r.2.2)

/-! ## Footfall (`footfall_by_hour` / `footfall_by_day`,
multi_camera_aggregator.py 22-47 and 221-242) -/

/-- The event-side WHERE clause of both footfall queries. -/
def footfallEventPred (store : String) (fromTs toTs : Nat) (e : Event) : Bool :=
  e.store_id == store && e.type == "entrance" &&
    e.payload.direction == some "in" && decide (fromTs ≤ e.ts ∧ e.ts ≤ toTs)

/-- `JOIN cameras_extended c ON e.camera_id = c.camera_id` with
`c.is_entrance = true`: the event row is counted once per matching camera
row. -/
def footfallJoinCount (cams : List Camera) (e : Event) : Nat :=
  (cams.filter (fun c => c.camera_id == e.camera_id && c.is_entrance)).length

/-- The footfall reported by `footfall_by_day` for the bucket `day`. -/
def footfall_by_day_count (cams : List Camera) (events : List Event)
    (store : String) (fromTs toTs day : Nat) : Nat :=
  ((events.filter (fun e => footfallEventPred store fromTs toTs e &&
      e.ts / 86400 == day)).map (footfallJoinCount cams)).sum

/-- The footfall reported by `footfall_by_hour` for the bucket `hour`. -/
def footfall_by_hour_count (cams : List Camera) (events : List Event)
    (store : String) (fromTs toTs hour : Nat) : Nat :=
  ((events.filter (fun e => footfallEventPred store fromTs toTs e &&
      e.ts / 3600 == hour)).map (footfallJoinCount cams)).sum

/-- Whether some camera row matches the event with `is_entrance = true`. -/
def hasEntranceCamera (cams : List Camera) (e : Event) : Bool :=
  cams.any (fun c => c.camera_id == e.camera_id && c.is_entrance)

/-! ## Zone metrics (`zones_metrics`, multi_camera_aggregator.py 49-81) -/

/-- The WHERE clause of `zones_metrics`, specialised to the group
`payload->>'logical_zone' = z`. -/
def zoneDwellPred (store : String) (fromTs toTs : Nat) (z : String)
    (e : Event) : Bool :=
  e.store_id == store && e.type == "zone_dwell" &&
    e.payload.logical_zone == some z &&
    (match e.payload.dwell_seconds with
     | some d => decide ((4 : ℚ) ≤ d)
     | none => false) &&
    decide (fromTs ≤ e.ts ∧ e.ts ≤ toTs)

/-- The SQL dedup key
`camera_id || '_' || payload->>'person_id' || '_' || date_trunc('minute', ts)::text`;
when `person_id` is NULL the whole concatenation is NULL and the row is
skipped by `COUNT(DISTINCT ...)`. -/
def dedupKey (e : Event) : Option String :=
  e.payload.person_id.map
    (fun p => e.camera_id ++ "_" ++ p ++ "_" ++ toString (e.ts / 60))

/-- `unique_visitors` reported by `zones_metrics` for zone `z`. -/
def zones_unique_visitors (events : List Event) (store : String)
    (fromTs toTs : Nat) (z : String) : Nat :=
  (((events.filter (zoneDwellPred store fromTs toTs z)).filterMap
      dedupKey).dedup).length

/-- Modelled from the spec's words, for comparison: the number of distinct
`(camera_id, person_id, minute-truncated ts)` TRIPLES among the qualifying
rows of zone `z`. -/
def spec_unique_visitors (events : List Event) (store : String)
    (fromTs toTs : Nat) (z : String) : Nat :=
  (((events.filter (zoneDwellPred store fromTs toTs z)).filterMap
      (fun e => e.payload.person_id.map
        (fun p => (e.camera_id, p, e.ts / 60)))).dedup).length

/-! ## Queue metrics (`queue_metrics`, multi_camera_aggregator.py 116-151) -/

/-- Python's `round(x, 2)`: to the nearest multiple of `1/100`, ties to the
even hundredth (the source rounds exact decimals, where IEEE `round` agrees
with decimal round-half-even). -/
def round2 (q : ℚ) : ℚ :=
  let fl : ℤ := ⌊q * 100⌋
  let r := q * 100 - fl
  if r < 1 / 2 then (fl : ℚ) / 100
  else if 1 / 2 < r then (fl + 1 : ℚ) / 100
  else if 2 ∣ fl then (fl : ℚ) / 100 else (fl + 1 : ℚ) / 100

/-- `np.percentile(xs, p)` with the default linear-interpolation method, on
an already sorted non-empty list: rank `h = p/100·(n-1)`, result
`xs[⌊h⌋] + (h-⌊h⌋)·(xs[⌊h⌋+1] - xs[⌊h⌋])` (upper index clamped). -/
def percentileLinear (sorted : List ℚ) (p : ℚ) : ℚ :=
  let n := sorted.length
  let hRank := p / 100 * ((n : ℚ) - 1)
  let i := (⌊hRank⌋).toNat
  let j := min (i + 1) (n - 1)
  let lo := sorted.getD i 0
  let hi := sorted.getD j 0
  lo + (hRank - i) * (hi - lo)

/-- The metrics dict returned by `queue_metrics`. -/
structure QueueMetrics where
  avg_wait : ℚ
  p90_wait : ℚ
  total_events : Nat
deriving DecidableEq

/-- One step of a structural insertion sort. -/
def insertLe {α : Type} (le : α → α → Bool) (x : α) : List α → List α
  | [] => [x]
  | y :: ys => if le x y then x :: y :: ys else y :: insertLe le x ys

/-- Structural insertion sort, modelling `ORDER BY` and NumPy's internal
sort (all comparison sorts agree on the sorted value list). -/
def sortLe {α : Type} (le : α → α → Bool) (l : List α) : List α :=
  l.foldr (insertLe le) []

/-- The `wait_seconds` values selected by `queue_metrics` (rows with a
non-NULL `wait_seconds`, ordered by value). -/
def queueWaits (events : List Event) (store : String) (fromTs toTs : Nat) :
    List ℚ :=
  sortLe (fun a b => decide (a ≤ b))
    (((events.filter (fun e => e.store_id == store && e.type == "queue_presence" &&
        e.payload.wait_seconds.isSome && decide (fromTs ≤ e.ts ∧ e.ts ≤ toTs))).filterMap
      (fun e => e.payload.wait_seconds)))

/-- `queue_metrics`: `np.mean` and `np.percentile(…, 90)` over the
materialised wait list, rounded to 2 decimals; zeros when empty. -/
def queue_metrics (events : List Event) (store : String) (fromTs toTs : Nat) :
    QueueMetrics :=
  let waits := queueWaits events store fromTs toTs
  if waits.isEmpty then ⟨0, 0, 0⟩
  else ⟨round2 (waits.sum / waits.length),
        round2 (percentileLinear waits 90), waits.length⟩

/-! ## Spike detection (`detect_spikes`, spike_detector.py 20-82) -/

/-- Day buckets of the footfall metric (`GROUP BY DATE(ts) ORDER BY 1`):
the distinct days of qualifying events, ascending, with their counts. -/
def spikeRows (events : List Event) (store : String) (fromTs toTs : Nat) :
    List (Nat × Nat) :=
  let qual := events.filter (fun e => e.store_id == store &&
      e.type == "entrance" && e.payload.direction == some "in" &&
      decide (fromTs ≤ e.ts ∧ e.ts ≤ toTs))
  (sortLe (fun a b => decide (a ≤ b)) ((qual.map (fun e => e.ts / 86400)).dedup)).map
    (fun d => (d, (qual.filter (fun e => e.ts / 86400 == d)).length))

/-- The bucket values as rationals. -/
def spikeValues (events : List Event) (store : String) (fromTs toTs : Nat) :
    List ℚ :=
  (spikeRows events store fromTs toTs).map (fun r => (r.2 : ℚ))

/-- `statistics.mean`. -/
def listMean (vals : List ℚ) : ℚ := vals.sum / vals.length

/-- The square of `statistics.stdev` (SAMPLE variance, Bessel's `n - 1`
denominator); kept squared so the development stays in `ℚ`. -/
def sampleVar (vals : List ℚ) : ℚ :=
  ((vals.map (fun x => (x - listMean vals) ^ 2)).sum) / ((vals.length : ℚ) - 1)

/-- `detect_spikes` for `metric="footfall"`: fewer than 3 day buckets or a
zero standard deviation yield no spikes, otherwise exactly the buckets with
`|x-μ|/σ ≥ threshold_z` are returned (stated squared:
`threshold_z² · σ² ≤ (x-μ)²`, equivalent for `threshold_z ≥ 0`). -/
def detect_spikes (events : List Event) (store : String) (fromTs toTs : Nat)
    (threshold_z : ℚ) : List (Nat × Nat) :=
  if (spikeRows events store fromTs toTs).length < 3 then []
  else if sampleVar (spikeValues events store fromTs toTs) = 0 then []
  else (spikeRows events store fromTs toTs).filter (fun r =>
    decide (threshold_z ^ 2 * sampleVar (spikeValues events store fromTs toTs) ≤
      ((r.2 : ℚ) - listMean (spikeValues events store fromTs toTs)) ^ 2))

/-- Modelled from the spec's words, for comparison: the same detector with
POPULATION variance (`n` denominator), as the spec's `σ` prescribes. -/
def popVar (vals : List ℚ) : ℚ :=
  ((vals.map (fun x => (x - listMean vals) ^ 2)).sum) / (vals.length : ℚ)

/-- Modelled from the spec's words, for comparison: spike detection with
population σ. -/
def spec_detect_spikes (events : List Event) (store : String)
    (fromTs toTs : Nat) (threshold_z : ℚ) : List (Nat × Nat) :=
  if (spikeRows events store fromTs toTs).length < 3 then []
  else if popVar (spikeValues events store fromTs toTs) = 0 then []
  else (spikeRows events store fromTs toTs).filter (fun r =>
    decide (threshold_z ^ 2 * popVar (spikeValues events store fromTs toTs) ≤
      ((r.2 : ℚ) - listMean (spikeValues events store fromTs toTs)) ^ 2))

/-! ## Promo uplift (`calculate_uplift`, promo_analyzer.py 19-105) -/

/-- The count the `metric == "interactions"` branch of `calculate_uplift`
runs: events with `type = 'shelf'` AND `payload->>'state' = 'dwell'` in the
window. -/
def interactionsCount (events : List Event) (store : String) (a b : Nat) :
    Nat :=
  (events.filter (fun e => e.store_id == store && e.type == "shelf" &&
      e.payload.state == some "dwell" && decide (a ≤ e.ts ∧ e.ts ≤ b))).length

/-- The per-day-rate uplift formula of `calculate_uplift`, given the two
window counts.  `promo_duration = (to - from)/86400` days,
`baseline_daily = baseline_val / baseline_days`, and
`uplift_% = 100·(promo_daily - baseline_daily)/baseline_daily`, reported as
`0.0` when the baseline rate is not positive; the response rounds to 2
decimals. -/
def upliftPercent (promo_val baseline_val : ℚ) (fromTs toTs : Nat)
    (baseline_days : Nat) : ℚ :=
  let promo_duration : ℚ := ((toTs : ℚ) - (fromTs : ℚ)) / 86400
  let promo_daily := if 0 < promo_duration then promo_val / promo_duration else 0
  let baseline_daily :=
    if 0 < baseline_days then baseline_val / (baseline_days : ℚ) else 0
  if 0 < baseline_daily then
    round2 ((promo_daily - baseline_daily) / baseline_daily * 100)
  else 0

/-- `calculate_uplift` for `metric="interactions"`: baseline window is
`[from - baseline_days days, from - 1s]`. -/
def calculate_uplift_interactions (events : List Event) (store : String)
    (fromTs toTs : Nat) (baseline_days : Nat) : ℚ :=
  upliftPercent
    (interactionsCount events store fromTs toTs)
    (interactionsCount events store (fromTs - baseline_days * 86400) (fromTs - 1))
    fromTs toTs baseline_days

/-- Modelled from the spec's words, for comparison: the interactions metric
counting the shelf-interaction events the pipeline actually stores
(`type = 'shelf_interaction'`). -/
def spec_interactionsCount (events : List Event) (store : String) (a b : Nat) :
    Nat :=
  (events.filter (fun e => e.store_id == store &&
      e.type == "shelf_interaction" && decide (a ≤ e.ts ∧ e.ts ≤ b))).length

/-- Modelled from the spec's words, for comparison: uplift over
shelf-interaction events. -/
def spec_uplift_interactions (events : List Event) (store : String)
    (fromTs toTs : Nat) (baseline_days : Nat) : ℚ :=
  upliftPercent
    (spec_interactionsCount events store fromTs toTs)
    (spec_interactionsCount events store (fromTs - baseline_days * 86400) (fromTs - 1))
    fromTs toTs baseline_days

/-! ## Edge capability state machines (edge_runtime_v2.py)

Centroids are exact rational points.  `cv2.pointPolygonTest` is an external
library call; the zone/queue membership test is therefore a parameter
`inPoly`, and the theorems quantify over it. -/

/-- A 2-D point. -/
abbrev Pt : Type := ℚ × ℚ

/-- The `ccw` helper of `line_crossing`. -/
def ccw (A B C : Pt) : Bool :=
  decide ((C.2 - A.2) * (B.1 - A.1) > (B.2 - A.2) * (C.1 - A.1))

/-- `line_crossing(prev, curr, p1, p2)`. -/
def line_crossing (prev curr p1 p2 : Pt) : Bool :=
  (ccw prev p1 p2 != ccw curr p1 p2) && (ccw prev curr p1 != ccw prev curr p2)

/-- `crossing_direction(prev, curr, p1, p2)`. -/
def crossing_direction (prev curr p1 p2 : Pt) : String :=
  let cross := (p2.1 - p1.1) * (curr.2 - prev.2) - (p2.2 - p1.2) * (curr.1 - prev.1)
  if 0 < cross then "in" else "out"

/-- The fields of `PersonTrack` the entrance and queue machines touch;
a fresh track has the `__init__` values. -/
structure PersonTrack where
  entrance_crossed : Bool := false
  centroid : Pt := (0, 0)
  prev_centroid : Pt := (0, 0)
  in_queue : Bool := false
  queue_id : Option String := none
  queue_enter_ts : Option ℚ := none
deriving DecidableEq

/-- A `queue_presence` emission. -/
structure QueueEvent where
  queue : String
  wait_seconds : ℚ
deriving DecidableEq

/-- `process_entrance`: nothing without a 2-point entrance line; one-shot on
`entrance_crossed`; on a crossing, sets the flag and emits the direction. -/
def process_entrance (entrance_line : Option (List Pt)) (tr : PersonTrack) :
    PersonTrack × Option String :=
  match entrance_line with
  | none => (tr, none)
  | some line =>
      if line.length < 2 then (tr, none)
      else if tr.entrance_crossed then (tr, none)
      else
        let p1 := line.getD 0 (0, 0)
        let p2 := line.getD 1 (0, 0)
        if line_crossing tr.prev_centroid tr.centroid p1 p2 then
          ({ tr with entrance_crossed := true },
           some (crossing_direction tr.prev_centroid tr.centroid p1 p2))
        else (tr, none)

/-- One processed frame for the entrance machine: the run loop shifts
`prev_centroid := centroid; centroid := c` before `process_entrance`. -/
def entranceFrame (entrance_line : Option (List Pt)) (tr : PersonTrack)
    (c : Pt) : PersonTrack × Option String :=
  process_entrance entrance_line
    { tr with prev_centroid := tr.centroid, centroid := c }

/-- A whole sequence of frames; returns the final track state and the
number of entrance events emitted. -/
def runEntrance (entrance_line : Option (List Pt)) (tr : PersonTrack) :
    List Pt → PersonTrack × Nat
  | [] => (tr, 0)
  | c :: cs =>
      let s := entranceFrame entrance_line tr c
      let rest := runEntrance entrance_line s.1 cs
      (rest.1, (if s.2.isSome then 1 else 0) + rest.2)

/-- `process_queue`: nothing without queue polygons; first polygon
containing the centroid wins; entry records `queue_id`/`queue_enter_ts`
silently; exit emits `queue_presence` guarded by the truthiness of both
(`0.0` and `""` are falsy) and resets all three fields. -/
def process_queue (inPoly : Pt → List Pt → Bool)
    (queue_polygons : List (String × List Pt)) (tr : PersonTrack) (now : ℚ) :
    PersonTrack × Option QueueEvent :=
  if queue_polygons.isEmpty then (tr, none)
  else
    match queue_polygons.find? (fun qp => inPoly tr.centroid qp.2) with
    | some qp =>
        if tr.in_queue then (tr, none)
        else ({ tr with in_queue := true, queue_id := some qp.1,
                        queue_enter_ts := some now }, none)
    | none =>
        if tr.in_queue then
          let ev :=
            match tr.queue_enter_ts, tr.queue_id with
            | some t, some q =>
                if t ≠ 0 ∧ q ≠ "" then some ⟨q, round2 (now - t)⟩ else none
            | _, _ => none
          ({ tr with in_queue := false, queue_id := none,
                     queue_enter_ts := none }, ev)
        else (tr, none)

/-- One processed frame for the queue machine (centroid shift, then
`process_queue`). -/
def queueFrame (inPoly : Pt → List Pt → Bool)
    (queue_polygons : List (String × List Pt)) (tr : PersonTrack) (c : Pt)
    (now : ℚ) : PersonTrack × Option QueueEvent :=
  process_queue inPoly queue_polygons
    { tr with prev_centroid := tr.centroid, centroid := c } now

/-- A whole sequence of queue frames; returns the final track state. -/
def runQueue (inPoly : Pt → List Pt → Bool)
    (queue_polygons : List (String × List Pt)) (tr : PersonTrack) :
    List (Pt × ℚ) → PersonTrack
  | [] => tr
  | step :: rest =>
      runQueue inPoly queue_polygons
        (queueFrame inPoly queue_polygons tr step.1 step.2).1 rest

/-- The queue-state consistency invariant of a track: `in_queue`,
`queue_enter_ts` and `queue_id` are set together. -/
def QInv (tr : PersonTrack) : Prop :=
  (tr.in_queue = true ↔ tr.queue_enter_ts.isSome = true) ∧
  (tr.in_queue = true ↔ tr.queue_id.isSome = true)

/-! ## Concrete scenario data (spec §8) -/

/-- Two events already stored (scenario for resubmitting a batch). -/
def s1db : List Event :=
  [{ event_id := "a", org_id := "o", store_id := "s", camera_id := "cam",
     type := "entrance", ts := 0 },
   { event_id := "b", org_id := "o", store_id := "s", camera_id := "cam",
     type := "entrance", ts := 1 }]

/-- The same two events resubmitted as a bulk batch. -/
def s1batch : List IngestEvent :=
  [{ event_id := "a", org_id := "o", store_id := "s", camera_id := "cam",
     type := "entrance", ts := 0 },
   { event_id := "b", org_id := "o", store_id := "s", camera_id := "cam",
     type := "entrance", ts := 1 }]

/-- A batch whose FIRST event matches the credential scope and whose second
event claims a different org. -/
def crossOrgBatch : List IngestEvent :=
  [{ event_id := "e1", org_id := "o", store_id := "s", camera_id := "cam",
     type := "entrance", ts := 0 },
   { event_id := "e2", org_id := "evil", store_id := "s", camera_id := "cam",
     type := "entrance", ts := 1 }]

/-- S2: `camA` is an entrance camera, `camB` is not, both in `storeX`. -/
def s2cams : List Camera :=
  [⟨"camA", "storeX", true⟩, ⟨"camB", "storeX", false⟩]

/-- S2: five `entrance/in` events from each camera, all on day 0. -/
def s2events : List Event :=
  (List.range 5).map (fun i =>
    { event_id := "a" ++ toString i, org_id := "o", store_id := "storeX",
      camera_id := "camA", type := "entrance", ts := i,
      payload := { direction := some "in", person_id := some ("p" ++ toString i) } }) ++
  (List.range 5).map (fun i =>
    { event_id := "b" ++ toString i, org_id := "o", store_id := "storeX",
      camera_id := "camB", type := "entrance", ts := 10 + i,
      payload := { direction := some "in", person_id := some ("q" ++ toString i) } })

/-- Two zone-dwell rows whose DISTINCT `(camera, person, minute)` triples
collide once run through the `'_'`-joined string key: `c_x ‖ _ ‖ p` and
`c ‖ _ ‖ x_p` both read `c_x_p`. -/
def zoneCollisionEvents : List Event :=
  [{ event_id := "za", org_id := "o", store_id := "s", camera_id := "c_x",
     type := "zone_dwell", ts := 0,
     payload := { person_id := some "p", logical_zone := some "z",
                  dwell_seconds := some 5 } },
   { event_id := "zb", org_id := "o", store_id := "s", camera_id := "c",
     type := "zone_dwell", ts := 0,
     payload := { person_id := some "x_p", logical_zone := some "z",
                  dwell_seconds := some 5 } }]

/-- S3: five dwell events of `P1` and three of `P2`, same camera, same zone,
same minute. -/
def s3events : List Event :=
  (List.range 5).map (fun i =>
    { event_id := "p1e" ++ toString i, org_id := "o", store_id := "storeX",
      camera_id := "camZ", type := "zone_dwell", ts := i,
      payload := { person_id := some "P1",
                   logical_zone := some "zone_electronics",
                   dwell_seconds := some 6 } }) ++
  (List.range 3).map (fun i =>
    { event_id := "p2e" ++ toString i, org_id := "o", store_id := "storeX",
      camera_id := "camZ", type := "zone_dwell", ts := 10 + i,
      payload := { person_id := some "P2",
                   logical_zone := some "zone_electronics",
                   dwell_seconds := some 6 } })

/-- S4: the twenty queue wait times. -/
def s4waits : List ℚ :=
  [5, 8, 10, 12, 15, 18, 20, 22, 25, 28, 30, 35, 40, 45, 50, 55, 60, 70, 80, 90]

/-- S4: one `queue_presence` event per wait time. -/
def s4events : List Event :=
  (s4waits.enum).map (fun wi =>
    { event_id := "q" ++ toString wi.1, org_id := "o", store_id := "storeX",
      camera_id := "camQ", type := "queue_presence", ts := wi.1,
      payload := { person_id := some ("p" ++ toString wi.1), queue := some "checkout",
                   wait_seconds := some wi.2 } })

/-- Five days of entrance/in counts `[1, 1, 1, 1, 6]`: a series whose day-4
bucket has population z-score exactly 2 but sample z-score `4/√5 < 2`. -/
def spikeBoundaryEvents : List Event :=
  ((List.range 4).map (fun d =>
    { event_id := "d" ++ toString d, org_id := "o", store_id := "s",
      camera_id := "cam", type := "entrance", ts := d * 86400,
      payload := { direction := some "in", person_id := some "p" } })) ++
  ((List.range 6).map (fun i =>
    { event_id := "s" ++ toString i, org_id := "o", store_id := "s",
      camera_id := "cam", type := "entrance", ts := 345600 + i,
      payload := { direction := some "in", person_id := some "p" } }))

/-- A constant series: one entrance/in event on each of three days. -/
def constSpikeEvents : List Event :=
  (List.range 3).map (fun d =>
    { event_id := "c" ++ toString d, org_id := "o", store_id := "s",
      camera_id := "cam", type := "entrance", ts := d * 86400,
      payload := { direction := some "in", person_id := some "p" } })

/-- S6: 20 shelf interactions in the 7-day baseline `[0, 604800)` and 35 in
the 7-day promo window `[604800, 1209600]`, stored as the pipeline stores
them (`type = 'shelf_interaction'`, `action = 'touch'`). -/
def s6events : List Event :=
  (List.range 20).map (fun i =>
    { event_id := "base" ++ toString i, org_id := "o", store_id := "storeX",
      camera_id := "camS", type := "shelf_interaction", ts := i * 30000,
      payload := { logical_shelf := some "shelf_snacks", action := some "touch",
                   dwell_seconds := some 10, person_id := some ("pb" ++ toString i) } }) ++
  (List.range 35).map (fun i =>
    { event_id := "promo" ++ toString i, org_id := "o", store_id := "storeX",
      camera_id := "camS", type := "shelf_interaction", ts := 604800 + i * 17000,
      payload := { logical_shelf := some "shelf_snacks", action := some "touch",
                   dwell_seconds := some 10, person_id := some ("pp" ++ toString i) } })

/-! ## Theorems -/

/-- A duplicate `event_id` makes one loop step count a duplicate, roll the
transaction back (dropping all pending rows) and continue. -/
theorem insertLoop_dup_step (committed : List Event) (e : IngestEvent)
    (rest : List IngestEvent) (pending : List Event) (ins dups : Nat)
    (h : e.event_id ∈ eventIds committed ++ eventIds pending) :
    insertLoop committed (e :: rest) pending ins dups =
      insertLoop committed rest [] ins (dups + 1) := by
  simp only [insertLoop]
  rw [if_pos h]

/-- A batch made entirely of already-stored `event_id`s leaves the loop with
no pending rows and one duplicate per event. -/
theorem insertLoop_all_dups (committed : List Event) :
    ∀ (evts : List IngestEvent),
      (∀ e ∈ evts, e.event_id ∈ eventIds committed) →
      ∀ ins dups, insertLoop committed evts [] ins dups =
        (ins, dups + evts.length, []) := by
  intro evts
  induction evts with
  | nil => intro _ ins dups; simp [insertLoop]
  | cons e rest ih =>
      intro h ins dups
      have he : e.event_id ∈ eventIds committed ++ eventIds ([] : List Event) := by
        simpa [eventIds] using h e (List.mem_cons_self e rest)
      rw [insertLoop_dup_step committed e rest [] ins dups he,
          ih (fun x hx => h x (List.mem_cons_of_mem _ hx)) ins (dups + 1)]
      have harith : dups + 1 + rest.length = dups + (e :: rest).length := by
        simp [List.length_cons]; omega
      rw [harith]

/-- **C1.**  `POST /v1/events/bulk`: a unique-constraint violation on
`event_id` increments `duplicates` and the loop continues; consequently a
batch of already-stored events resubmitted under a matching credential gets
`inserted = 0`, `inserted + duplicates = total = n`, and leaves the stored
events unchanged. -/
theorem bulk_duplicate_batch (auth : Scope) (first : IngestEvent)
    (rest : List IngestEvent) (db : List Event)
    (horg : first.org_id = auth.org_id) (hstore : first.store_id = auth.store_id)
    (hdup : ∀ e ∈ first :: rest, e.event_id ∈ eventIds db) :
    v1_post_events_bulk auth (first :: rest) db =
      (BulkResult.ok 0 (first :: rest).length (first :: rest).length, db) ∧
    ∀ (committed : List Event) (e : IngestEvent) (rest2 : List IngestEvent)
      (pending : List Event) (ins dups : Nat),
      e.event_id ∈ eventIds committed ++ eventIds pending →
      insertLoop committed (e :: rest2) pending ins dups =
        insertLoop committed rest2 [] ins (dups + 1) := by
  refine ⟨?_, fun committed e r2 p i d h => insertLoop_dup_step committed e r2 p i d h⟩
  simp only [v1_post_events_bulk]
  rw [if_neg (by simp [horg, hstore]),
      insertLoop_all_dups db (first :: rest) hdup 0 0]
  simp

/-- Witness for C1: the two-event scenario batch resubmitted over a store
already holding both `event_id`s. -/
theorem bulk_duplicate_batch_witness :
    (∀ e ∈ s1batch, e.event_id ∈ eventIds s1db) ∧
    v1_post_events_bulk ⟨"o", "s", none⟩ s1batch s1db =
      (BulkResult.ok 0 2 2, s1db) := by
  refine ⟨by decide, ?_⟩
  have h := (bulk_duplicate_batch ⟨"o", "s", none⟩
    { event_id := "a", org_id := "o", store_id := "s", camera_id := "cam",
      type := "entrance", ts := 0 }
    [{ event_id := "b", org_id := "o", store_id := "s", camera_id := "cam",
       type := "entrance", ts := 1 }]
    s1db rfl rfl (by decide)).1
  simpa [s1batch] using h

/-- Counterexample to C3 as stated: a batch whose SECOND event carries a
different `org_id` is not rejected — the endpoint answers `ok` and persists
both rows, including the cross-org one. -/
theorem bulk_scope_counterexample :
    (∃ e ∈ crossOrgBatch, e.org_id ≠ "o") ∧
    (v1_post_events_bulk ⟨"o", "s", none⟩ crossOrgBatch []).1 =
      BulkResult.ok 2 0 2 ∧
    ((v1_post_events_bulk ⟨"o", "s", none⟩ crossOrgBatch []).2.map
      Event.org_id) = ["o", "evil"] := by decide

/-- **C3** (amended).  The scope check covers only the FIRST event of the
batch: when the first event's `(org_id, store_id)` differs from the
credential's scope the endpoint returns 403 and persists nothing; later
events are never checked. -/
theorem bulk_first_event_scope (auth : Scope) (first : IngestEvent)
    (rest : List IngestEvent) (db : List Event)
    (h : first.org_id ≠ auth.org_id ∨ first.store_id ≠ auth.store_id) :
    v1_post_events_bulk auth (first :: rest) db = (BulkResult.forbidden, db) := by
  simp only [v1_post_events_bulk]
  rw [if_pos h]

/-- Witness for the amended C3: a mismatched first event is rejected. -/
theorem bulk_first_event_scope_witness :
    v1_post_events_bulk ⟨"o", "s", none⟩
        [{ event_id := "w1", org_id := "other", store_id := "s",
           camera_id := "cam", type := "entrance", ts := 0 }] [] =
      (BulkResult.forbidden, []) :=
  bulk_first_event_scope _ _ _ _ (Or.inl (by decide))

/-- With distinct `camera_id`s (the column is the primary key of
`cameras_extended`), the join contributes exactly one row when some
entrance-flagged camera matches and zero otherwise. -/
theorem footfallJoinCount_eq (e : Event) :
    ∀ (cams : List Camera), (cams.map Camera.camera_id).Nodup →
      footfallJoinCount cams e = if hasEntranceCamera cams e then 1 else 0 := by
  intro cams
  induction cams with
  | nil => intro _; rfl
  | cons c cs ih =>
      intro h
      rw [List.map_cons, List.nodup_cons] at h
      by_cases hp : (c.camera_id == e.camera_id && c.is_entrance) = true
      · have hid : c.camera_id = e.camera_id := by
          have := (Bool.and_eq_true _ _).mp hp
          exact eq_of_beq this.1
        have hnil : cs.filter (fun c2 => c2.camera_id == e.camera_id && c2.is_entrance) = [] := by
          rw [List.filter_eq_nil_iff]
          intro c2 hc2 hmem
          have hid2 : c2.camera_id = e.camera_id :=
            eq_of_beq ((Bool.and_eq_true _ _).mp hmem).1
          exact h.1 (List.mem_map.mpr ⟨c2, hc2, by rw [hid2, hid]⟩)
        simp [footfallJoinCount, hasEntranceCamera, hp, hnil]
      · have hp2 : (c.camera_id == e.camera_id && c.is_entrance) = false :=
          Bool.eq_false_iff.mpr hp
        simp only [footfallJoinCount, hasEntranceCamera, List.filter_cons,
          List.any_cons, hp2, Bool.false_or, if_neg]
        exact ih h.2

/-- Counting `1` per member of a filter. -/
theorem sum_map_ite_one (f : Event → Bool) :
    ∀ l : List Event, (l.map (fun e => if f e then 1 else 0)).sum = (l.filter f).length := by
  intro l
  induction l with
  | nil => rfl
  | cons e rest ih =>
      by_cases hf : f e = true
      · simp [hf, ih, Nat.add_comm]
      · simp [Bool.eq_false_iff.mpr hf, hf, ih]

/-- **C2.**  Footfall by day (and by hour) counts exactly the in-window
`entrance`/`direction='in'` events whose camera is entrance-flagged; events
of cameras with `is_entrance = false` never contribute. -/
theorem footfall_entrance_only (cams : List Camera) (events : List Event)
    (store : String) (fromTs toTs day hour : Nat)
    (h : (cams.map Camera.camera_id).Nodup) :
    footfall_by_day_count cams events store fromTs toTs day =
      (events.filter (fun e => footfallEventPred store fromTs toTs e &&
        (e.ts / 86400 == day) && hasEntranceCamera cams e)).length ∧
    footfall_by_hour_count cams events store fromTs toTs hour =
      (events.filter (fun e => footfallEventPred store fromTs toTs e &&
        (e.ts / 3600 == hour) && hasEntranceCamera cams e)).length := by
  have hmap : ∀ (l : List Event),
      (l.map (footfallJoinCount cams)).sum =
        (l.filter (hasEntranceCamera cams)).length := by
    intro l
    rw [← sum_map_ite_one (hasEntranceCamera cams) l]
    exact congrArg List.sum
      (List.map_congr_left (fun e _ => footfallJoinCount_eq e cams h))
  constructor
  · rw [footfall_by_day_count, hmap, List.filter_filter]
    congr 1
    apply List.filter_congr
    intro e _
    simp [Bool.and_comm, Bool.and_left_comm, Bool.and_assoc]
  · rw [footfall_by_hour_count, hmap, List.filter_filter]
    congr 1
    apply List.filter_congr
    intro e _
    simp [Bool.and_comm, Bool.and_left_comm, Bool.and_assoc]

/-- Witness for C2, scenario S2: five entrance/in events from the
entrance-flagged camera and five from the other camera count as 5. -/
theorem footfall_entrance_only_witness :
    (s2cams.map Camera.camera_id).Nodup ∧
    footfall_by_day_count s2cams s2events "storeX" 0 86399 0 =
      (s2events.filter (fun e => footfallEventPred "storeX" 0 86399 e &&
        (e.ts / 86400 == 0) && hasEntranceCamera s2cams e)).length ∧
    footfall_by_day_count s2cams s2events "storeX" 0 86399 0 = 5 :=
  ⟨by decide,
   (footfall_entrance_only s2cams s2events "storeX" 0 86399 0 0 (by decide)).1,
   by decide⟩

/-- Counterexample to C4 as stated: the `'_'`-joined dedup string conflates
the DISTINCT triples `(c_x, p, 0)` and `(c, x_p, 0)`, so the reported
`unique_visitors` (1) is not the number of distinct triples (2). -/
theorem zones_unique_visitors_counterexample :
    zones_unique_visitors zoneCollisionEvents "s" 0 100 "z" = 1 ∧
    spec_unique_visitors zoneCollisionEvents "s" 0 100 "z" = 2 := by decide

/-- **C4** (amended).  `unique_visitors` is the number of distinct values of
the string `camera_id ‖ '_' ‖ person_id ‖ '_' ‖ minute(ts)` over the zone's
qualifying (`dwell_seconds ≥ 4`) rows — which can conflate triples whose ids
contain `'_'` — it never exceeds the number of qualifying events, and the S3
scenario (5 events of P1 and 3 of P2, same camera/zone/minute) reports 2. -/
theorem zones_unique_visitors_amended :
    (∀ (events : List Event) (store : String) (fromTs toTs : Nat) (z : String),
      zones_unique_visitors events store fromTs toTs z ≤
        (events.filter (zoneDwellPred store fromTs toTs z)).length) ∧
    zones_unique_visitors s3events "storeX" 0 100 "zone_electronics" = 2 := by
  constructor
  · intro events store fromTs toTs z
    exact le_trans (List.dedup_sublist _).length_le
      (List.length_filterMap_le _ _)
  · decide

set_option maxRecDepth 400000

attribute [local semireducible] Rat.inv Rat.mul Rat.add Rat.sub

/-- Counterexample to C5 as stated: with the empty `logical_key` the code
hashes `camera|track|ts|type` WITHOUT the final separator, so the digest is
not the digest of the five-part concatenation ending in `"|" ‖ ""`. -/
theorem make_event_id_emptykey_counterexample :
    make_event_id "c" "t" "s" "y" "" ≠
      Sha256.sha256Hex (strBytes
        ("c" ++ "|" ++ "t" ++ "|" ++ "s" ++ "|" ++ "y" ++ "|" ++ "")) := by
  decide

/-- **C5** (amended).  `make_event_id` is the SHA-256 hex digest of
`camera_id ‖ "|" ‖ track_id ‖ "|" ‖ ts_iso ‖ "|" ‖ type`, extended by
`"|" ‖ logical_key` only when `logical_key` is non-empty, and it is a pure
deterministic function of its five inputs. -/
theorem make_event_id_concat (c t ts ty k : String) :
    make_event_id c t ts ty k =
      Sha256.sha256Hex (strBytes (c ++ "|" ++ t ++ "|" ++ ts ++ "|" ++ ty ++
        (if k = "" then "" else "|" ++ k))) ∧
    ∀ c2 t2 ts2 ty2 k2 : String,
      c = c2 → t = t2 → ts = ts2 → ty = ty2 → k = k2 →
      make_event_id c t ts ty k = make_event_id c2 t2 ts2 ty2 k2 := by
  constructor
  · have hb : ∀ a b : String, strBytes (a ++ b) = strBytes a ++ strBytes b := by
      intro a b
      simp [strBytes, String.data_append, List.flatMap_append]
    have hpipe : strBytes "|" = pipeByte := by decide
    have hnil : strBytes "" = [] := by decide
    by_cases hk : k = ""
    · subst hk
      simp [make_event_id, hb, hpipe, hnil]
    · simp [make_event_id, hb, hpipe, hk]
  · intro c2 t2 ts2 ty2 k2 h1 h2 h3 h4 h5
    rw [h1, h2, h3, h4, h5]

/-- Witness for C5 (amended), at the entrance-event call site shape. -/
theorem make_event_id_concat_witness :
    make_event_id "camA" "7" "2025-01-01T00:00:00+00:00" "entrance" "in" =
      Sha256.sha256Hex (strBytes ("camA" ++ "|" ++ "7" ++ "|" ++
        "2025-01-01T00:00:00+00:00" ++ "|" ++ "entrance" ++
        (if ("in" : String) = "" then "" else "|" ++ "in"))) ∧
    make_event_id "camA" "7" "2025-01-01T00:00:00+00:00" "entrance" "in" =
      make_event_id "camA" "7" "2025-01-01T00:00:00+00:00" "entrance" "in" :=
  ⟨(make_event_id_concat "camA" "7" "2025-01-01T00:00:00+00:00" "entrance" "in").1,
   (make_event_id_concat "camA" "7" "2025-01-01T00:00:00+00:00" "entrance"
      "in").2 _ _ _ _ _ rfl rfl rfl rfl rfl⟩

/-- Counterexample to C6 as stated: on the S4 wait list the code reports
`avg_wait = 35.9` and `p90_wait = 71.0` — the claimed `≈ 33.75` and `≈ 81`
are off by 2.15 and 10 respectively. -/
theorem queue_metrics_counterexample :
    (queue_metrics s4events "storeX" 0 100).avg_wait = 359 / 10 ∧
    (queue_metrics s4events "storeX" 0 100).p90_wait = 71 ∧
    ¬ |(359 : ℚ) / 10 - 135 / 4| ≤ 1 ∧ ¬ |(71 : ℚ) - 81| ≤ 1 := by decide

/-- **C6** (amended).  On the S4 list `queue_metrics` reports the true
arithmetic mean `35.9` and the true linear-interpolation (NumPy default)
90th percentile `71.0` of the 20 materialised wait times. -/
theorem queue_metrics_s4 :
    queue_metrics s4events "storeX" 0 100 = ⟨359 / 10, 71, 20⟩ ∧
    listMean s4waits = 359 / 10 ∧
    percentileLinear s4waits 90 = 71 := by decide

/-- Counterexample to C7 as stated: on day counts `[1,1,1,1,6]` the claimed
population-σ detector flags day 4 (its z-score is exactly 2), but the code —
which uses `statistics.stdev`, the SAMPLE standard deviation — returns no
spikes. -/
theorem detect_spikes_population_counterexample :
    detect_spikes spikeBoundaryEvents "s" 0 1000000 2 = [] ∧
    spec_detect_spikes spikeBoundaryEvents "s" 0 1000000 2 = [(4, 6)] := by
  decide

/-- **C8.**  The `interactions` metric of `calculate_uplift` counts events
with `type = 'shelf'` and `payload.state = 'dwell'` — a shape the pipeline
never stores (shelf events are `type = 'shelf_interaction'` with
`action = 'touch'`), so on the S6 scenario both window counts are 0 and the
reported uplift is 0, not the claimed 75; the per-day-rate formula itself
produces 75 when the stored shelf-interaction events are counted. -/
theorem calculate_uplift_dead_interactions_query :
    calculate_uplift_interactions s6events "storeX" 604800 1209600 7 = 0 ∧
    interactionsCount s6events "storeX" 604800 1209600 = 0 ∧
    interactionsCount s6events "storeX" 0 604799 = 0 ∧
    spec_interactionsCount s6events "storeX" 604800 1209600 = 35 ∧
    spec_interactionsCount s6events "storeX" 0 604799 = 20 ∧
    spec_uplift_interactions s6events "storeX" 604800 1209600 7 = 75 := by
  decide

/-- A list of equal rationals sums to the constant times its length. -/
theorem sum_const_list (c : ℚ) :
    ∀ l : List ℚ, (∀ x ∈ l, x = c) → l.sum = c * l.length := by
  intro l
  induction l with
  | nil => intro _; simp
  | cons x xs ih =>
      intro h
      have hx : x = c := h x (List.mem_cons_self x xs)
      have hs := ih (fun y hy => h y (List.mem_cons_of_mem _ hy))
      simp [hx, hs]
      ring

/-- The mean of a non-empty constant list is the constant. -/
theorem listMean_const (l : List ℚ) (c : ℚ) (h : ∀ x ∈ l, x = c)
    (hne : l ≠ []) : listMean l = c := by
  have hlen : (l.length : ℚ) ≠ 0 := by
    exact_mod_cast Nat.cast_ne_zero.mpr (List.length_pos.mpr hne).ne'
  rw [listMean, sum_const_list c l h, mul_div_assoc, div_self hlen, mul_one]

/-- A non-empty constant list has zero sample variance. -/
theorem sampleVar_const (l : List ℚ) (c : ℚ) (h : ∀ x ∈ l, x = c)
    (hne : l ≠ []) : sampleVar l = 0 := by
  rw [sampleVar]
  have hz : (l.map (fun x => (x - listMean l) ^ 2)).sum = 0 := by
    apply List.sum_eq_zero
    intro y hy
    rcases List.mem_map.mp hy with ⟨x, hx, rfl⟩
    rw [h x hx, listMean_const l c h hne]
    ring
  rw [hz, zero_div]

/-- **C7** (amended).  `detect_spikes` buckets the metric by day; with fewer
than 3 buckets or zero SAMPLE standard deviation (`statistics.stdev`,
Bessel `n-1` denominator — not the population σ) — in particular on every
constant series — it returns no spikes; otherwise it returns exactly the
buckets with `|x-μ|/σ_sample ≥ threshold_z` (stated squared). -/
theorem detect_spikes_sample_sigma (events : List Event) (store : String)
    (fromTs toTs : Nat) (tz : ℚ) :
    ((spikeRows events store fromTs toTs).length < 3 →
      detect_spikes events store fromTs toTs tz = []) ∧
    (sampleVar (spikeValues events store fromTs toTs) = 0 →
      detect_spikes events store fromTs toTs tz = []) ∧
    (∀ c : ℚ, (∀ x ∈ spikeValues events store fromTs toTs, x = c) →
      detect_spikes events store fromTs toTs tz = []) ∧
    (∀ r : Nat × Nat, r ∈ detect_spikes events store fromTs toTs tz ↔
      3 ≤ (spikeRows events store fromTs toTs).length ∧
      sampleVar (spikeValues events store fromTs toTs) ≠ 0 ∧
      r ∈ spikeRows events store fromTs toTs ∧
      tz ^ 2 * sampleVar (spikeValues events store fromTs toTs) ≤
        ((r.2 : ℚ) - listMean (spikeValues events store fromTs toTs)) ^ 2) := by
  have hlen : (spikeValues events store fromTs toTs).length =
      (spikeRows events store fromTs toTs).length := by
    simp [spikeValues]
  refine ⟨fun h3 => by simp [detect_spikes, h3], fun hv => ?_, fun c hc => ?_, fun r => ?_⟩
  · by_cases h3 : (spikeRows events store fromTs toTs).length < 3
    · simp [detect_spikes, h3]
    · rw [detect_spikes, if_neg h3, if_pos hv]
  · by_cases h3 : (spikeRows events store fromTs toTs).length < 3
    · simp [detect_spikes, h3]
    · have hne : spikeValues events store fromTs toTs ≠ [] := by
        intro hnil
        rw [hnil] at hlen
        simp at hlen
        omega
      rw [detect_spikes, if_neg h3, if_pos (sampleVar_const _ c hc hne)]
  · by_cases h3 : (spikeRows events store fromTs toTs).length < 3
    · have hemp : detect_spikes events store fromTs toTs tz = [] := by
        simp [detect_spikes, h3]
      rw [hemp]
      simp only [List.not_mem_nil, false_iff]
      intro hcon
      exact absurd hcon.1 (by omega)
    · by_cases hv : sampleVar (spikeValues events store fromTs toTs) = 0
      · have hemp : detect_spikes events store fromTs toTs tz = [] := by
          rw [detect_spikes, if_neg h3, if_pos hv]
        rw [hemp]
        simp only [List.not_mem_nil, false_iff]
        intro hcon
        exact absurd hv hcon.2.1
      · rw [detect_spikes, if_neg h3, if_neg hv, List.mem_filter]
        constructor
        · rintro ⟨hmem, hcond⟩
          exact ⟨by omega, hv, hmem, of_decide_eq_true hcond⟩
        · rintro ⟨-, -, hmem, hcond⟩
          exact ⟨hmem, decide_eq_true hcond⟩

/-- Witness for C7 (amended): a constant three-day series yields no
spikes. -/
theorem detect_spikes_sample_sigma_witness :
    (∀ x ∈ spikeValues constSpikeEvents "s" 0 400000, x = 1) ∧
    detect_spikes constSpikeEvents "s" 0 400000 2 = [] :=
  ⟨by decide,
   (detect_spikes_sample_sigma constSpikeEvents "s" 0 400000 2).2.2.1 1 (by decide)⟩

/-- `process_entrance` on a track that has already crossed leaves the flag
set and emits nothing. -/
theorem process_entrance_mono (line : Option (List Pt)) (tr : PersonTrack)
    (h : tr.entrance_crossed = true) :
    (process_entrance line tr).1.entrance_crossed = true ∧
    (process_entrance line tr).2 = none := by
  cases line with
  | none => simp [process_entrance, h]
  | some l =>
      by_cases hl : l.length < 2
      · simp [process_entrance, hl, h]
      · simp [process_entrance, hl, h]

/-- `process_entrance` emits only from the unset flag, and the emission
sets the flag. -/
theorem process_entrance_some (line : Option (List Pt)) (tr : PersonTrack)
    (h : ((process_entrance line tr).2).isSome = true) :
    tr.entrance_crossed = false ∧
    (process_entrance line tr).1.entrance_crossed = true := by
  cases line with
  | none => simp [process_entrance] at h
  | some l =>
      by_cases hl : l.length < 2
      · simp [process_entrance, hl] at h
      · by_cases hc : tr.entrance_crossed = true
        · simp [process_entrance, hl, hc] at h
        · refine ⟨Bool.eq_false_iff.mpr hc, ?_⟩
          have hcf : tr.entrance_crossed = false := Bool.eq_false_iff.mpr hc
          simp only [process_entrance, hl, hcf, Bool.false_eq_true, if_false] at h ⊢
          split at h
          · rename_i hx
            rw [if_pos hx]
          · simp at h

/-- A frame processed on a track that has already crossed leaves the flag
set and emits nothing (the centroid shift does not touch the flag). -/
theorem entranceFrame_flag_mono (line : Option (List Pt)) (tr : PersonTrack)
    (c : Pt) (h : tr.entrance_crossed = true) :
    (entranceFrame line tr c).1.entrance_crossed = true ∧
    (entranceFrame line tr c).2 = none :=
  process_entrance_mono line _ h

/-- A frame emits an entrance event only from the unset flag, and the
emission sets the flag. -/
theorem entranceFrame_some (line : Option (List Pt)) (tr : PersonTrack)
    (c : Pt) (h : ((entranceFrame line tr c).2).isSome = true) :
    tr.entrance_crossed = false ∧
    (entranceFrame line tr c).1.entrance_crossed = true :=
  process_entrance_some line _ h

/-- Emission count of a run is bounded by 1, and by 0 once the flag is
set. -/
theorem runEntrance_count_le (line : Option (List Pt)) :
    ∀ (cs : List Pt) (tr : PersonTrack),
      (runEntrance line tr cs).2 ≤ (if tr.entrance_crossed then 0 else 1) := by
  intro cs
  induction cs with
  | nil => intro tr; simp [runEntrance]
  | cons c cs ih =>
      intro tr
      simp only [runEntrance]
      by_cases h : tr.entrance_crossed = true
      · have hm := entranceFrame_flag_mono line tr c h
        have hr := ih (entranceFrame line tr c).1
        rw [if_pos hm.1] at hr
        simp [h, hm.2]
        omega
      · have hb : tr.entrance_crossed = false := Bool.eq_false_iff.mpr h
        by_cases hs : ((entranceFrame line tr c).2).isSome = true
        · have h2 := entranceFrame_some line tr c hs
          have hr := ih (entranceFrame line tr c).1
          rw [if_pos h2.2] at hr
          simp [hb, hs]
          omega
        · have hs2 : ((entranceFrame line tr c).2).isSome = false :=
            Bool.eq_false_iff.mpr hs
          have hr := ih (entranceFrame line tr c).1
          have hr1 : (runEntrance line (entranceFrame line tr c).1 cs).2 ≤ 1 := by
            refine le_trans hr ?_
            by_cases hf : (entranceFrame line tr c).1.entrance_crossed = true
            · simp [hf]
            · simp [Bool.eq_false_iff.mpr hf]
          simp [hb, hs2]
          omega

/-- **C9.**  At most one entrance event is ever emitted per track: across
any frame sequence from a fresh track the emission count is ≤ 1; an
emission happens only when `entrance_crossed` is false and sets it; and no
later frame resets the flag while the track lives. -/
theorem entrance_one_shot :
    (∀ (line : Option (List Pt)) (cs : List Pt),
      (runEntrance line {} cs).2 ≤ 1) ∧
    (∀ (line : Option (List Pt)) (tr : PersonTrack) (c : Pt),
      ((entranceFrame line tr c).2).isSome = true →
      tr.entrance_crossed = false ∧
      (entranceFrame line tr c).1.entrance_crossed = true) ∧
    (∀ (line : Option (List Pt)) (tr : PersonTrack) (c : Pt),
      tr.entrance_crossed = true →
      (entranceFrame line tr c).1.entrance_crossed = true ∧
      (entranceFrame line tr c).2 = none) := by
  refine ⟨fun line cs => ?_, fun line tr c h => entranceFrame_some line tr c h,
    fun line tr c h => entranceFrame_flag_mono line tr c h⟩
  have h := runEntrance_count_le line cs ({} : PersonTrack)
  simpa using h

/-- Witness for C9: a concrete crossing of the line `x = 1` emits from the
fresh flag and sets it. -/
theorem entrance_one_shot_witness :
    ((entranceFrame (some [((1 : ℚ), -1), (1, 1)]) {} ((2 : ℚ), 0)).2).isSome = true ∧
    (({} : PersonTrack).entrance_crossed = false ∧
     (entranceFrame (some [((1 : ℚ), -1), (1, 1)]) {} ((2 : ℚ), 0)).1.entrance_crossed = true) :=
  ⟨by decide, entrance_one_shot.2.1 _ _ _ (by decide)⟩

/-- `process_queue` preserves the queue-state invariant. -/
theorem process_queue_preserves (inPoly : Pt → List Pt → Bool)
    (qs : List (String × List Pt)) (tr : PersonTrack) (now : ℚ)
    (h : QInv tr) : QInv (process_queue inPoly qs tr now).1 := by
  unfold process_queue
  by_cases he : qs.isEmpty
  · simpa [he] using h
  · cases hf : qs.find? (fun qp => inPoly tr.centroid qp.2) with
    | some qp =>
        by_cases hq : tr.in_queue
        · simpa [he, hf, hq] using h
        · simp [he, hf, hq, QInv]
    | none =>
        by_cases hq : tr.in_queue
        · simp [he, hf, hq, QInv]
        · simpa [he, hf, hq] using h

/-- The centroid shift touches no queue field, so a whole frame preserves
the invariant. -/
theorem queueFrame_preserves (inPoly : Pt → List Pt → Bool)
    (qs : List (String × List Pt)) (tr : PersonTrack) (c : Pt) (now : ℚ)
    (h : QInv tr) : QInv (queueFrame inPoly qs tr c now).1 := by
  apply process_queue_preserves
  simpa [QInv] using h

/-- The invariant holds along any run. -/
theorem runQueue_inv (inPoly : Pt → List Pt → Bool)
    (qs : List (String × List Pt)) :
    ∀ (steps : List (Pt × ℚ)) (tr : PersonTrack), QInv tr →
      QInv (runQueue inPoly qs tr steps) := by
  intro steps
  induction steps with
  | nil => intro tr h; simpa [runQueue] using h
  | cons s rest ih =>
      intro tr h
      simp only [runQueue]
      exact ih _ (queueFrame_preserves inPoly qs tr s.1 s.2 h)

/-- An emitted `queue_presence` event comes from the recorded enter state. -/
theorem queueFrame_emit (inPoly : Pt → List Pt → Bool)
    (qs : List (String × List Pt)) (tr : PersonTrack) (c : Pt) (now : ℚ)
    (ev : QueueEvent) (h : (queueFrame inPoly qs tr c now).2 = some ev) :
    tr.in_queue = true ∧ ∃ t : ℚ, tr.queue_enter_ts = some t ∧
      tr.queue_id = some ev.queue ∧ ev.wait_seconds = round2 (now - t) := by
  unfold queueFrame process_queue at h
  by_cases he : qs.isEmpty
  · simp [he] at h
  · simp only [he, Bool.false_eq_true, if_false] at h
    cases hf : qs.find? (fun qp => inPoly c qp.2) with
    | some qp =>
        rw [hf] at h
        by_cases hq : tr.in_queue <;> simp [hq] at h
    | none =>
        rw [hf] at h
        by_cases hq : tr.in_queue
        · refine ⟨hq, ?_⟩
          cases ht : tr.queue_enter_ts with
          | none => simp [hq, ht] at h
          | some t =>
              cases hid : tr.queue_id with
              | none => simp [hq, ht, hid] at h
              | some q =>
                  by_cases hg : t ≠ 0 ∧ q ≠ ""
                  · simp [hq, ht, hid, hg] at h
                    exact ⟨t, rfl, by simp [← h], by simp [← h]⟩
                  · simp [hq, ht, hid, hg] at h
        · simp [hq] at h

/-- **C10.**  From a fresh track, any sequence of queue frames keeps
`in_queue`, `queue_enter_ts` and `queue_id` consistent (set together,
cleared together), and every emitted `queue_presence` event carries
`wait_seconds = round(now - enter_ts, 2)` for the recorded enter timestamp
of the queue being exited. -/
theorem queue_state_consistent :
    (∀ (inPoly : Pt → List Pt → Bool) (qs : List (String × List Pt))
       (steps : List (Pt × ℚ)), QInv (runQueue inPoly qs {} steps)) ∧
    (∀ (inPoly : Pt → List Pt → Bool) (qs : List (String × List Pt))
       (tr : PersonTrack) (c : Pt) (now : ℚ) (ev : QueueEvent),
      (queueFrame inPoly qs tr c now).2 = some ev →
      tr.in_queue = true ∧ ∃ t : ℚ, tr.queue_enter_ts = some t ∧
        tr.queue_id = some ev.queue ∧ ev.wait_seconds = round2 (now - t)) := by
  refine ⟨fun inPoly qs steps => ?_,
    fun inPoly qs tr c now ev h => queueFrame_emit inPoly qs tr c now ev h⟩
  apply runQueue_inv
  simp [QInv]

/-- Witness for C10: a track inside the `q` queue since `t = 1` leaves it
at `now = 3` and the event reports a 2-second wait. -/
theorem queue_state_consistent_witness :
    (queueFrame (fun _ _ => false) [("q", [])]
        { in_queue := true, queue_id := some "q", queue_enter_ts := some 1 }
        (0, 0) 3).2 = some ⟨"q", 2⟩ ∧
    (({ in_queue := true, queue_id := some "q", queue_enter_ts := some 1 } :
        PersonTrack).in_queue = true ∧
     ∃ t : ℚ, ({ in_queue := true, queue_id := some "q",
                 queue_enter_ts := some 1 } : PersonTrack).queue_enter_ts = some t ∧
       ({ in_queue := true, queue_id := some "q", queue_enter_ts := some 1 } :
          PersonTrack).queue_id = some (⟨"q", 2⟩ : QueueEvent).queue ∧
       (⟨"q", 2⟩ : QueueEvent).wait_seconds = round2 (3 - t)) :=
  ⟨by decide,
   queue_state_consistent.2 (fun _ _ => false) [("q", [])]
     { in_queue := true, queue_id := some "q", queue_enter_ts := some 1 }
     (0, 0) 3 ⟨"q", 2⟩ (by decide)⟩

end Wink
